import Mathlib

/-!
Verification development for the `distromax` package.

We shallowly embed the two core modules:

* `distromax/analytical.py` — `AnalyticalGammaToGumbel`: parameter validation
  and the stored `(shape, scale)` Gamma parameters.
* `distromax/fit.py` — `BatchMaxGumbel` (batching, Gumbel max-propagation) and
  `BatchMaxGumbelWithCleaning` / `BatchMaxGumbelNotchingOutliers` (the
  iterative outlier-notching pipeline).

Real-valued data is modelled over `ℚ` (the claims under scrutiny concern
control flow, index bookkeeping and exact algebraic identities, not rounding).
External numerical collaborators (numpy's RNG permutation, `np.log`,
scipy's Gumbel MLE, skimage's `threshold_minimum`) are passed in as explicit
function parameters, exactly mirroring their role as black boxes in the code.
Python `None`-able float arguments are modelled as `Option ℚ`; Python
truthiness (`if x:` / `x or y`) is modelled explicitly, since the code mixes
`or`-based and `is not None`-based defaulting.
-/

/-- Python truthiness of an optional float argument: `None` and `0.0` are
falsy, every other value is truthy. -/
def truthy : Option ℚ → Bool
  | none => false
  | some x => x != 0

/-- `AnalyticalGammaToGumbel.__init__` (analytical.py, lines 46-61):
validates the `(dofs, shape, scale, rate)` argument combination and returns
the stored `(shape, scale)` pair set by `_set_shape_scale`, or the
`ValueError` message raised.  Note the Python code tests truthiness
(`if dofs:`, `elif shape:`, `bool(scale) ^ bool(rate)`), not `is None`. -/
def AnalyticalGammaToGumbel.init (dofs shape scale rate : Option ℚ) :
    Except String (ℚ × ℚ) :=
  if truthy dofs then
    if truthy shape then
      .error "Only one out of dofs and shape can be given"
    else
      -- shape = dofs / 2, scale = 2.
      .ok (dofs.getD 0 / 2, 2)
  else if truthy shape then
    if (truthy scale) == (truthy rate) then
      -- `not (bool(scale) ^ bool(rate))`
      .error "Only one out of scale and rate can be given"
    else if truthy rate then
      -- scale = 1 / rate
      .ok (shape.getD 0, 1 / rate.getD 0)
    else
      .ok (shape.getD 0, scale.getD 0)
  else
    .error "Invalid input parameters: Please enter dofs, (scale, shape) or (scale, rate)"

/-! ## `BatchMaxGumbel` (fit.py, lines 8-86) -/

/-- State of a fitted `BatchMaxGumbel`: the fitted Gumbel `(loc, scale)`
(`self.gumbel.args`) and, once `max_propagation` has run, the stored
propagated distribution's parameters (`self.propagated_gumbel`). -/
structure BatchMaxGumbel where
  gumbel : ℚ × ℚ
  propagated_gumbel : Option (ℚ × ℚ) := none
deriving DecidableEq

/-- `BatchMaxGumbel.max_propagation` (fit.py, lines 77-86).  `np.log` is an
external numerical primitive, passed in as `log`.  Returns the updated state
together with the returned `propagated_params` pair. -/
def BatchMaxGumbel.max_propagation (log : ℚ → ℚ) (self : BatchMaxGumbel)
    (num_batches : ℚ) : BatchMaxGumbel × (ℚ × ℚ) :=
  let loc := self.gumbel.1
  let scale := self.gumbel.2
  let propagated_params := (loc + scale * log num_batches, scale)
  ({ self with propagated_gumbel := some propagated_params }, propagated_params)

/-- Fold computing the maximum of a (batch) slice, as `np.maximum.reduceat`
does on a nonempty slice; the head is the fold's seed. -/
def sliceMax (l : List ℚ) : ℚ :=
  l.foldl max (l.headD 0)

/-- Per-batch maxima of consecutive groups of `b` samples, i.e.
`np.maximum.reduceat(samples, np.arange(0, len(samples), b))`.
Structural recursion on a fuel counter (the list length). -/
def batchMaximaGo (b : ℕ) : ℕ → List ℚ → List ℚ
  | _, [] => []
  | 0, _ => []
  | fuel + 1, l => sliceMax (l.take b) :: batchMaximaGo b fuel (l.drop b)

/-- Per-batch maxima with batch size `b` (last batch may be shorter). -/
def batchMaxima (b : ℕ) (l : List ℚ) : List ℚ :=
  batchMaximaGo b l.length l

/-- `BatchMaxGumbel.batch_max_samples` (fit.py, lines 58-71).  `perm` is the
seeded `np.random.default_rng(shuffle_seed).permutation` primitive.
`if not batch_size:` — both `None` and `0` make the raw samples the batch
maxima. -/
def batch_max_samples (perm : List ℚ → List ℚ) (batch_size : Option ℕ)
    (shuffle : Bool) (samples : List ℚ) : List ℚ :=
  match batch_size with
  | none => samples
  | some 0 => samples
  | some (b + 1) =>
    let samples_to_batch := if shuffle then perm samples else samples
    batchMaxima (b + 1) samples_to_batch

/-! ## Notching (fit.py, lines 89-267)

A sample row of the 2-D input: `(frequency, statistic)` — column 0 and the
last column of `samples`. -/

/-- One row of the 2-D `samples` array: `(samples[i, 0], samples[i, -1])`. -/
abbrev Sample := ℚ × ℚ

/-- Insert a row into a frequency-sorted list. -/
def insertByFreq (s : Sample) : List Sample → List Sample
  | [] => [s]
  | t :: rest => if s.1 ≤ t.1 then s :: t :: rest else t :: insertByFreq s rest

/-- `samples[samples[:, 0].argsort()]` (fit.py, line 183): sort rows by the
frequency column.  (numpy's argsort is an unstable sort; any order within a
tied frequency block yields the same per-frequency maxima and the same
all-or-nothing deletions, so a concrete sort is a faithful model.) -/
def sortByFreq : List Sample → List Sample
  | [] => []
  | s :: rest => insertByFreq s (sortByFreq rest)

/-- `np.unique(samples[:, 0], return_index=True)` on the frequency-sorted
rows (fit.py, line 184): the positions of the first row of each distinct
frequency value. -/
def uniqueIndices (sorted : List Sample) : List ℕ :=
  (List.range sorted.length).filter fun i =>
    i == 0 || ((sorted.getD i (0, 0)).1 != (sorted.getD (i - 1) (0, 0)).1)

/-- `np.maximum.reduceat(samples[:, -1], self.unique_indices)`
(fit.py, line 185): for each unique-frequency position, the maximum
statistic over that frequency's block of rows. -/
def maxAtF0 (sorted : List Sample) : List ℚ :=
  let stats := sorted.map (·.2)
  let uis := uniqueIndices sorted
  List.zipWith (fun a b => sliceMax ((stats.drop a).take (b - a)))
    uis (uis.tail ++ [stats.length])

/-- Insertion sort of the per-frequency maxima (ascending), used by the
quantile primitive. -/
def insertQ (x : ℚ) : List ℚ → List ℚ
  | [] => [x]
  | y :: rest => if x ≤ y then x :: y :: rest else y :: insertQ x rest

/-- Ascending sort on `ℚ`. -/
def sortQ : List ℚ → List ℚ
  | [] => []
  | x :: rest => insertQ x (sortQ rest)

/-- The quantile primitive `np.quantile(a, q)` (default linear
interpolation): with the ascending sort `s` of `a` and `h = q * (n - 1)`,
returns `s[⌊h⌋] + (h - ⌊h⌋) * (s[⌊h⌋ + 1] - s[⌊h⌋])`.  An external
collaborator with this fixed mathematical contract (spec §6); only ever
applied to nonempty data in the claims below. -/
def npQuantile (a : List ℚ) (q : ℚ) : ℚ :=
  let s := sortQ a
  let h : ℚ := q * ((s.length : ℚ) - 1)
  let i : ℕ := ⌊h⌋.toNat
  let lo := s.getD i 0
  let hi := s.getD (i + 1) lo
  lo + (h - (i : ℚ)) * (hi - lo)

/-- The value held in `self.threshold`: a float, or `-np.inf` (the fallback
installed when `skimage.filters.threshold_minimum` raises). -/
inductive ThresholdNum where
  | negInf
  | val (v : ℚ)
deriving DecidableEq

/-- `self.threshold < stopping` with IEEE semantics for `-inf`
(fit.py, line 225). -/
def ThresholdNum.ltQ : ThresholdNum → ℚ → Bool
  | .negInf, _ => true
  | .val v, s => v < s

/-- `m > self.threshold` with IEEE semantics for `-inf` (fit.py, line 232). -/
def ThresholdNum.flagged : ThresholdNum → ℚ → Bool
  | .negInf, _ => true
  | .val v, m => v < m

/-- The `threshold` constructor argument: a fixed float or a callable
(`None` is modelled by `Option`'s `none` around this type). -/
inductive ThresholdArg where
  | value (v : ℚ)
  | callable (f : List ℚ → ℚ)

/-- `self.stopping_det_stat or np.quantile(self.max_at_f0,
self.stopping_quantile)` (fit.py, lines 221-223): Python `or`, so both
`None` and `0.0` fall back to the quantile of the per-frequency maxima. -/
def resolveStoppingDetStat (sds : Option ℚ) (sq : ℚ) (max_at_f0 : List ℚ) : ℚ :=
  match sds with
  | some s => if s = 0 then npQuantile max_at_f0 sq else s
  | none => npQuantile max_at_f0 sq

/-- `np.delete(samples, idx, axis=0)`: keep the rows whose position is not
listed in `idx`. -/
def npDelete (samples : List Sample) (idx : List ℕ) : List Sample :=
  (samples.enum.filter fun p => !(idx.contains p.1)).map (·.2)

/-- The `[np.arange(unique_indices[left], unique_indices[right]) for left,
right in zip(...)]` comprehension (fit.py, lines 246-251): each pair is
turned into the index range to delete; an out-of-range `left`/`right` is
numpy's `IndexError`. -/
def notchRanges (unique_indices : List ℕ) : List (ℕ × ℕ) → Except String (List ℕ)
  | [] => .ok []
  | (l, r) :: rest =>
    match unique_indices.get? l, unique_indices.get? r with
    | some a, some b =>
      match notchRanges unique_indices rest with
      | .ok t => .ok (List.range' a (b - a) ++ t)
      | .error e => .error e
    | _, _ => .error "index is out of bounds for axis 0"

/-- `BatchMaxGumbelNotchingOutliers.remove_samples` (fit.py, lines 219-267),
acting on the frequency-sorted rows with `max_at_f0` and `unique_indices`
precomputed by `notch_outliers`.  Faithful to the numpy error behaviour:
`.max()` of an empty index array and `np.concatenate` of an empty list both
raise `ValueError`, and out-of-range `unique_indices[...]` raises
`IndexError`. -/
def remove_samples (sq : ℚ) (sds : Option ℚ) (threshold : ThresholdNum)
    (max_at_f0 : List ℚ) (unique_indices : List ℕ) (samples : List Sample) :
    Except String (List Sample) :=
  let stopping := resolveStoppingDetStat sds sq max_at_f0
  if threshold.ltQ stopping then
    .ok samples
  else
    -- notched_bands = self.max_at_f0 > self.threshold
    -- notched_bands_index = np.nonzero(notched_bands)[0]
    let nbi := (List.range max_at_f0.length).filter fun i =>
      threshold.flagged (max_at_f0.getD i 0)
    match nbi.max? with
    | none => .error "zero-size array to reduction operation maximum which has no identity"
    | some M =>
      -- left_index_notch: elements whose diff with prepend=-1 exceeds 1
      let left_index_notch := (nbi.zip ((-1 : ℤ) :: nbi.map (fun x => (x : ℤ)))).filterMap
        fun p => if 1 < (p.1 : ℤ) - p.2 then some p.1 else none
      -- right_index_notch: elements whose diff with append=max+2 exceeds 1, plus 1
      let right_index_notch := (nbi.zip (nbi.tail ++ [M + 2])).filterMap
        fun p => if 1 < (p.2 : ℤ) - (p.1 : ℤ) then some (p.1 + 1) else none
      let pairs := left_index_notch.zip right_index_notch
      if pairs.isEmpty then
        .error "need at least one array to concatenate"
      else
        match notchRanges unique_indices pairs with
        | .ok indices_to_delete => .ok (npDelete samples indices_to_delete)
        | .error e => .error e

/-- The diagnostic instance attributes left behind by an iteration of
`notch_outliers` / `remove_samples`: `self.threshold` (fit.py, lines
190-201) and the resolved `self.stopping_det_stat` (fit.py, line 221). -/
structure NotchDiag where
  threshold : ThresholdNum
  stopping_det_stat : ℚ
deriving DecidableEq

/-- `self.threshold` computation (fit.py, lines 190-201).  `tp` is the
external `skimage.filters.threshold_minimum` primitive; `none` models it
raising `RuntimeError` (no bimodal split found), in which case the code
substitutes `-np.inf` instead of propagating the error. -/
def computeThreshold (tp : List ℚ → Option ℚ) (thr : Option ThresholdArg)
    (max_at_f0 : List ℚ) : ThresholdNum :=
  match thr with
  | some (.callable f) => .val (f max_at_f0)
  | none =>
    match tp max_at_f0 with
    | some t => .val t
    | none => .negInf
  | some (.value v) => .val v

/-- `BatchMaxGumbelWithCleaning.notch_outliers` (fit.py, lines 174-203) with
the subclass's `remove_samples`: sort by frequency, compute `unique_indices`
and `max_at_f0`, compute the threshold, then remove samples.  Returns the
iteration's diagnostics together with the notched rows. -/
def notch_outliers (tp : List ℚ → Option ℚ) (sq : ℚ) (sds : Option ℚ)
    (thr : Option ThresholdArg) (samples : List Sample) :
    Except String (NotchDiag × List Sample) :=
  let sorted := sortByFreq samples
  let uis := uniqueIndices sorted
  let maxs := maxAtF0 sorted
  let threshold := computeThreshold tp thr maxs
  match remove_samples sq sds threshold maxs uis sorted with
  | .ok out => .ok (⟨threshold, resolveStoppingDetStat sds sq maxs⟩, out)
  | .error e => .error e

/-! ### Constructor argument resolution (fit.py, lines 114-164)

`BatchMaxGumbelNotchingOutliers` inherits `__init__` from
`BatchMaxGumbelWithCleaning`, with class defaults `_num_iterations = 5`,
`_stopping_quantile = 0.8`, `_stopping_det_stat = None`,
`_threshold = None`. -/

/-- `num_iterations if num_iterations is not None else self._num_iterations`
followed by the forcing on line 138-147: a non-`None`, non-callable
`threshold` (even `0.0`) forces `num_iterations` to 1 when it exceeds 1. -/
def resolveNumIterations (thr : Option ThresholdArg) (ni : Option ℕ) : ℕ :=
  let n := ni.getD 5
  match thr with
  | some (.value _) => if 1 < n then 1 else n
  | _ => n

/-- `threshold or self._threshold` (fit.py, line 162) with class default
`None`: a `0.0` threshold is falsy and becomes `None` (automatic
selection); a callable is always truthy. -/
def resolveThresholdArg : Option ThresholdArg → Option ThresholdArg
  | none => none
  | some (.value v) => if v = 0 then none else some (.value v)
  | some (.callable f) => some (.callable f)

/-- `stopping_det_stat or self._stopping_det_stat` (fit.py, line 161) with
class default `None`. -/
def resolveStoppingDetStatArg : Option ℚ → Option ℚ
  | none => none
  | some s => if s = 0 then none else some s

/-- `stopping_quantile or self._stopping_quantile` (fit.py, line 163) with
the subclass default `0.8`. -/
def resolveStoppingQuantile : Option ℚ → ℚ
  | none => 0.8
  | some s => if s = 0 then 0.8 else s

/-- The message of the `RuntimeError` raised when an iteration empties the
sample set (fit.py, lines 166-170). -/
def exhaustedDataMsg (num_iterations : ℕ) : String :=
  "It appears the last notching iteration completely obliterated your samples.\n" ++
    "Current configuration is `num_iterations = " ++ toString num_iterations ++
    "`, you probably should reduce that number."

/-- The loop state: the progressively notched rows and the diagnostics of
the last executed iteration (none before the first iteration). -/
abbrev NotchState := List Sample × Option NotchDiag

/-- The notching iteration loop of `BatchMaxGumbelWithCleaning.__init__`
(fit.py, lines 149-170): run `notch_outliers`, abort with `RuntimeError` if
the result is empty, repeat. -/
def notchLoop (tp : List ℚ → Option ℚ) (sq : ℚ) (sds : Option ℚ)
    (thr : Option ThresholdArg) (num_iterations : ℕ) :
    ℕ → NotchState → Except String NotchState
  | 0, st => .ok st
  | k + 1, st =>
    match notch_outliers tp sq sds thr st.1 with
    | .error e => .error e
    | .ok (d, out) =>
      if out.length = 0 then .error (exhaustedDataMsg num_iterations)
      else notchLoop tp sq sds thr num_iterations k (out, some d)

/-- The constructor arguments of `BatchMaxGumbelNotchingOutliers`
(`samples` aside). -/
structure NotcherConfig where
  num_iterations : Option ℕ := none
  stopping_det_stat : Option ℚ := none
  stopping_quantile : Option ℚ := none
  threshold : Option ThresholdArg := none
  batch_size : Option ℕ := none
  shuffle : Bool := true
  shuffle_seed : Option ℕ := none

/-- The observable outcome of a successful construction: the final
diagnostics, the cleaned rows handed to `BatchMaxGumbel`, and the inherited
batch maxima and fitted Gumbel parameters. -/
structure NotchedFitResult where
  diag : Option NotchDiag
  cleaned : List Sample
  batch_max : List ℚ
  gumbel : ℚ × ℚ

/-- `BatchMaxGumbelNotchingOutliers(samples, ...)` end to end (fit.py, lines
114-172 then 8-75): resolve the constructor arguments, run the notching
loop, then batch and fit the cleaned statistic column.  `tp` is the
threshold-selection primitive, `rng seed` the seeded permutation primitive,
`fitP` the Gumbel MLE primitive. -/
def construct (tp : List ℚ → Option ℚ) (rng : Option ℕ → List ℚ → List ℚ)
    (fitP : List ℚ → ℚ × ℚ) (cfg : NotcherConfig) (samples : List Sample) :
    Except String NotchedFitResult :=
  let n := resolveNumIterations cfg.threshold cfg.num_iterations
  match notchLoop tp (resolveStoppingQuantile cfg.stopping_quantile)
      (resolveStoppingDetStatArg cfg.stopping_det_stat)
      (resolveThresholdArg cfg.threshold) n n (samples, none) with
  | .error e => .error e
  | .ok st =>
    let stat := st.1.map (·.2)
    let bm := batch_max_samples (rng cfg.shuffle_seed) cfg.batch_size cfg.shuffle stat
    .ok ⟨st.2, st.1, bm, fitP bm⟩

/-! ## Theorems -/

/-- C2: the claim says construction raises for every invalid combination,
"in particular when dofs is given together with any of shape, scale, or
rate".  The code only rejects `dofs` together with `shape`: `dofs=4` with
`scale=7`, and `dofs=4` with `rate=3`, are accepted silently — the passed
`scale`/`rate` is discarded and `(shape, scale) = (2, 2)` is stored,
contradicting the constructor docstring ("This parameter is incompatible
with `shape`, `scale`, and `rate`"). -/
theorem c2_dofs_with_scale_or_rate_accepted :
    AnalyticalGammaToGumbel.init (some 4) none (some 7) none = .ok (2, 2)
    ∧ AnalyticalGammaToGumbel.init (some 4) none none (some 3) = .ok (2, 2) := by
  refine ⟨?_, ?_⟩ <;>
    · simp only [AnalyticalGammaToGumbel.init, truthy]
      norm_num

/-- C6: the three valid parameter sets `{dofs = d}`, `{shape = d/2, scale = 2}`
and `{shape = d/2, rate = 1/2}` store identical `(shape, scale) = (d/2, 2)`,
and in general a positive `rate` `r` with a (truthy) `shape` stores
`scale = 1/r`. -/
theorem c6_parameter_sets_agree (d r sh : ℚ) (hd : 0 < d) (hr : 0 < r)
    (hsh : sh ≠ 0) :
    AnalyticalGammaToGumbel.init (some d) none none none = .ok (d / 2, 2)
    ∧ AnalyticalGammaToGumbel.init none (some (d / 2)) (some 2) none = .ok (d / 2, 2)
    ∧ AnalyticalGammaToGumbel.init none (some (d / 2)) none (some (1 / 2)) = .ok (d / 2, 2)
    ∧ AnalyticalGammaToGumbel.init none (some sh) none (some r) = .ok (sh, 1 / r) := by
  have hd2 : d / 2 ≠ 0 := div_ne_zero hd.ne' two_ne_zero
  refine ⟨?_, ?_, ?_, ?_⟩ <;>
    · simp only [AnalyticalGammaToGumbel.init, truthy]
      simp [hd.ne', hd2, hr.ne', hsh]
      try norm_num

/-- Witness for C6 at `d = 4`, `r = 1/2`, `sh = 3`. -/
theorem c6_parameter_sets_agree_witness :
    ((0 : ℚ) < 4 ∧ (0 : ℚ) < 1 / 2 ∧ (3 : ℚ) ≠ 0)
    ∧ (AnalyticalGammaToGumbel.init (some 4) none none none = .ok (4 / 2, 2)
      ∧ AnalyticalGammaToGumbel.init none (some (4 / 2)) (some 2) none = .ok (4 / 2, 2)
      ∧ AnalyticalGammaToGumbel.init none (some (4 / 2)) none (some (1 / 2)) = .ok (4 / 2, 2)
      ∧ AnalyticalGammaToGumbel.init none (some 3) none (some (1 / 2)) = .ok (3, 1 / (1 / 2))) :=
  ⟨⟨by norm_num, by norm_num, by norm_num⟩,
    c6_parameter_sets_agree 4 (1 / 2) 3 (by norm_num) (by norm_num) (by norm_num)⟩

/-- C3: for a fitted `BatchMaxGumbel` with parameters `(loc, scale)` and any
positive `num_batches`, `max_propagation` returns exactly
`(loc + scale * log num_batches, scale)` and stores the propagated Gumbel
distribution with the same parameters (`log` being the `np.log`
primitive). -/
theorem c3_max_propagation_formula (log : ℚ → ℚ) (self : BatchMaxGumbel)
    (num_batches : ℚ) (hpos : 0 < num_batches) :
    (BatchMaxGumbel.max_propagation log self num_batches).2
      = (self.gumbel.1 + self.gumbel.2 * log num_batches, self.gumbel.2)
    ∧ (BatchMaxGumbel.max_propagation log self num_batches).1.propagated_gumbel
      = some (self.gumbel.1 + self.gumbel.2 * log num_batches, self.gumbel.2) :=
  ⟨rfl, rfl⟩

/-- Witness for C3 at `log = id`, `gumbel = (3, 7)`, `num_batches = 2`. -/
theorem c3_max_propagation_formula_witness :
    (0 : ℚ) < 2
    ∧ (BatchMaxGumbel.max_propagation id ⟨(3, 7), none⟩ 2).2 = (3 + 7 * id 2, 7)
    ∧ (BatchMaxGumbel.max_propagation id ⟨(3, 7), none⟩ 2).1.propagated_gumbel
      = some (3 + 7 * id 2, 7) :=
  ⟨by norm_num,
    (c3_max_propagation_formula id ⟨(3, 7), none⟩ 2 (by norm_num)).1,
    (c3_max_propagation_formula id ⟨(3, 7), none⟩ 2 (by norm_num)).2⟩

/-- C4: whenever the iteration's threshold is strictly below the resolved
stopping reference, `remove_samples` returns its input rows unchanged. -/
theorem c4_below_stopping_removes_nothing (sq : ℚ) (sds : Option ℚ)
    (threshold : ThresholdNum) (max_at_f0 : List ℚ) (unique_indices : List ℕ)
    (samples : List Sample)
    (h : threshold.ltQ (resolveStoppingDetStat sds sq max_at_f0) = true) :
    remove_samples sq sds threshold max_at_f0 unique_indices samples = .ok samples := by
  unfold remove_samples
  simp [h]

/-- Witness for C4: threshold 1 below the explicit stopping statistic 2. -/
theorem c4_below_stopping_removes_nothing_witness :
    (ThresholdNum.val 1).ltQ (resolveStoppingDetStat (some 2) 1 [3]) = true
    ∧ remove_samples 1 (some 2) (.val 1) [3] [0] [(1, 3)] = .ok [(1, 3)] :=
  ⟨rfl, c4_below_stopping_removes_nothing 1 (some 2) (.val 1) [3] [0] [(1, 3)] rfl⟩

/-- C7: with automatic threshold selection (`threshold = None`), a failure of
the bimodal threshold-selection primitive is swallowed: the threshold becomes
`-inf`, no error is propagated, and the iteration removes nothing (the
stopping reference is a finite rational by construction). -/
theorem c7_bimodal_failure_falls_back (tp : List ℚ → Option ℚ) (sq : ℚ)
    (sds : Option ℚ) (samples : List Sample) (hne : samples ≠ [])
    (hfail : tp (maxAtF0 (sortByFreq samples)) = none) :
    notch_outliers tp sq sds none samples
      = .ok (⟨.negInf, resolveStoppingDetStat sds sq (maxAtF0 (sortByFreq samples))⟩,
          sortByFreq samples) := by
  simp only [notch_outliers, computeThreshold, hfail, remove_samples,
    ThresholdNum.ltQ, if_true]

/-- Witness for C7 on two rows with an always-failing primitive. -/
theorem c7_bimodal_failure_falls_back_witness :
    ([(1, 3), (2, 4)] : List Sample) ≠ []
    ∧ (fun _ : List ℚ => (none : Option ℚ)) (maxAtF0 (sortByFreq [(1, 3), (2, 4)])) = none
    ∧ notch_outliers (fun _ => none) 1 (some 5) none [(1, 3), (2, 4)]
      = .ok (⟨.negInf, resolveStoppingDetStat (some 5) 1 (maxAtF0 (sortByFreq [(1, 3), (2, 4)]))⟩,
          sortByFreq [(1, 3), (2, 4)]) :=
  ⟨by simp, rfl,
    c7_bimodal_failure_falls_back (fun _ => none) 1 (some 5) [(1, 3), (2, 4)] (by simp) rfl⟩

/-- C1: evaluation of the notching iteration at boundary-run inputs, all
with threshold 5 (or 50) at least the explicit stopping statistic 2.

First conjunct: per-frequency maxima `[10, 1, 10, 1]` have two runs
exceeding the threshold, `{position 0}` and `{position 2}`; the claim says
the samples of frequencies 1 and 3 are deleted, but the code deletes
nothing (with the first position flagged, `np.diff(..., prepend=-1)` is `1`
there, not `> 1`, so the first run's left boundary is dropped and
`zip(left, right)` pairs the remaining boundaries crosswise into empty
ranges).

Second conjunct: a run containing the last unique-index position makes
`right_index_notch` contain `len(unique_indices)`, and
`unique_indices[right]` raises `IndexError` instead of deleting the band.

Third conjunct: a single run containing position 0 leaves
`left_index_notch` empty, so `np.concatenate` of an empty list raises
`ValueError` instead of deleting the band.

Fourth conjunct: when no position exceeds the threshold (yet the threshold
is at least the stopping reference), `notched_bands_index.max()` raises
`ValueError` on the empty index array instead of deleting nothing. -/
theorem c1_boundary_runs_diverge :
    notch_outliers (fun _ => none) 1 (some 2) (some (.value 5))
        [(1, 10), (2, 1), (3, 10), (4, 1)]
      = .ok (⟨.val 5, 2⟩, [(1, 10), (2, 1), (3, 10), (4, 1)])
    ∧ notch_outliers (fun _ => none) 1 (some 2) (some (.value 5))
        [(1, 1), (2, 1), (3, 10)]
      = .error "index is out of bounds for axis 0"
    ∧ notch_outliers (fun _ => none) 1 (some 2) (some (.value 5))
        [(1, 10), (2, 1), (3, 1)]
      = .error "need at least one array to concatenate"
    ∧ notch_outliers (fun _ => none) 1 (some 2) (some (.value 50))
        [(1, 1), (2, 1), (3, 10)]
      = .error "zero-size array to reduction operation maximum which has no identity" :=
  ⟨rfl, rfl, rfl, rfl⟩

/-- C9: falsy `0`/`0.0` arguments for `threshold`, `stopping_quantile` and
`stopping_det_stat` resolve exactly like omitted arguments (automatic
threshold selection, quantile `0.8`, quantile-derived stopping floor),
because the per-iteration arguments are combined with Python `or`; yet a
`0.0` threshold still forces `num_iterations` to 1, because that check uses
`is not None`. -/
theorem c9_falsy_arguments_resolution :
    resolveThresholdArg (some (.value 0)) = resolveThresholdArg none
    ∧ (∀ tp maxs, computeThreshold tp (resolveThresholdArg (some (.value 0))) maxs
        = computeThreshold tp none maxs)
    ∧ resolveStoppingQuantile (some 0) = resolveStoppingQuantile none
    ∧ resolveStoppingDetStatArg (some 0) = resolveStoppingDetStatArg none
    ∧ (∀ sq maxs, resolveStoppingDetStat (some 0) sq maxs = npQuantile maxs sq)
    ∧ resolveNumIterations (some (.value 0)) (some 7) = 1
    ∧ resolveNumIterations none (some 7) = 7
    ∧ resolveNumIterations (some (.value 0)) none = 1 :=
  ⟨rfl, fun _ _ => rfl, rfl, rfl, fun _ _ => rfl, rfl, rfl, rfl⟩

/-- Splitting the notching loop: if the first `k` iterations succeed
(producing state `st'`), the loop of `k + j` iterations continues from
`st'` for `j` more iterations. -/
theorem notchLoop_append (tp : List ℚ → Option ℚ) (sq : ℚ) (sds : Option ℚ)
    (thr : Option ThresholdArg) (ni : ℕ) (j k : ℕ) (st st' : NotchState)
    (h : notchLoop tp sq sds thr ni k st = .ok st') :
    notchLoop tp sq sds thr ni (k + j) st = notchLoop tp sq sds thr ni j st' := by
  induction k generalizing st with
  | zero =>
    simp only [notchLoop, Except.ok.injEq] at h
    rw [Nat.zero_add, h]
  | succ k ih =>
    rw [show k + 1 + j = (k + j) + 1 by omega]
    rw [notchLoop] at h
    rw [notchLoop]
    cases hno : notch_outliers tp sq sds thr st.1 with
    | error e => rw [hno] at h; exact absurd h (by simp)
    | ok p =>
      obtain ⟨d, out⟩ := p
      rw [hno] at h
      simp only at h ⊢
      by_cases hlen : out.length = 0
      · rw [if_pos hlen] at h; exact absurd h (by simp)
      · rw [if_neg hlen] at h
        rw [if_neg hlen]
        exact ih _ h

/-- C5: if, inside the iteration loop, some iteration notches the sample
set down to zero rows, construction aborts right there with the
exhausted-data `RuntimeError`; the error is independent of the shuffling
and Gumbel-fitting primitives, i.e. it is raised before any batching or
fitting takes place, and nothing catches or retries it. -/
theorem c5_exhausted_data_aborts (tp : List ℚ → Option ℚ) (cfg : NotcherConfig)
    (samples : List Sample) (k : ℕ) (st : NotchState) (d : NotchDiag)
    (hk : k < resolveNumIterations cfg.threshold cfg.num_iterations)
    (hreach : notchLoop tp (resolveStoppingQuantile cfg.stopping_quantile)
        (resolveStoppingDetStatArg cfg.stopping_det_stat)
        (resolveThresholdArg cfg.threshold)
        (resolveNumIterations cfg.threshold cfg.num_iterations) k (samples, none)
        = .ok st)
    (hempty : notch_outliers tp (resolveStoppingQuantile cfg.stopping_quantile)
        (resolveStoppingDetStatArg cfg.stopping_det_stat)
        (resolveThresholdArg cfg.threshold) st.1 = .ok (d, [])) :
    ∀ rng fitP, construct tp rng fitP cfg samples
      = .error (exhaustedDataMsg (resolveNumIterations cfg.threshold cfg.num_iterations)) := by
  intro rng fitP
  have hq : notchLoop tp (resolveStoppingQuantile cfg.stopping_quantile)
      (resolveStoppingDetStatArg cfg.stopping_det_stat)
      (resolveThresholdArg cfg.threshold)
      (resolveNumIterations cfg.threshold cfg.num_iterations)
      (resolveNumIterations cfg.threshold cfg.num_iterations) (samples, none)
      = .error (exhaustedDataMsg (resolveNumIterations cfg.threshold cfg.num_iterations)) := by
    have h2 := notchLoop_append tp (resolveStoppingQuantile cfg.stopping_quantile)
      (resolveStoppingDetStatArg cfg.stopping_det_stat)
      (resolveThresholdArg cfg.threshold)
      (resolveNumIterations cfg.threshold cfg.num_iterations)
      (resolveNumIterations cfg.threshold cfg.num_iterations - k) k
      (samples, none) st hreach
    rw [show k + (resolveNumIterations cfg.threshold cfg.num_iterations - k)
        = resolveNumIterations cfg.threshold cfg.num_iterations by omega] at h2
    rw [h2]
    obtain ⟨m, hm⟩ : ∃ m,
        resolveNumIterations cfg.threshold cfg.num_iterations - k = m + 1 :=
      ⟨resolveNumIterations cfg.threshold cfg.num_iterations - k - 1, by omega⟩
    rw [hm, notchLoop, hempty]
    simp
  simp only [construct, hq]

/-- Witness for C5: empty 2-D input, one iteration, manual threshold 1
below the explicit stopping statistic 2 — the iteration returns the (empty)
sample set unchanged and the constructor aborts. -/
theorem c5_exhausted_data_aborts_witness :
    (0 < resolveNumIterations (some (.value 1)) (some 1)
      ∧ notch_outliers (fun _ => none) (resolveStoppingQuantile none)
          (resolveStoppingDetStatArg (some 2)) (resolveThresholdArg (some (.value 1))) []
        = .ok (⟨.val 1, 2⟩, []))
    ∧ construct (fun _ => none) (fun _ l => l) (fun _ => (0, 1))
        { num_iterations := some 1, stopping_det_stat := some 2,
          threshold := some (.value 1) } []
      = .error (exhaustedDataMsg 1) :=
  ⟨⟨Nat.one_pos, rfl⟩,
    c5_exhausted_data_aborts (fun _ => none)
      { num_iterations := some 1, stopping_det_stat := some 2,
        threshold := some (.value 1) } [] 0 ([], none) ⟨.val 1, 2⟩
      Nat.one_pos rfl rfl (fun _ l => l) (fun _ => (0, 1))⟩

/-- C8: the notching pipeline is deterministic.  First, two runs with equal
configuration (including the shuffle seed, which fully parameterizes the
only randomness) and equal input data produce identical results — the model
threads all randomness through the explicit seeded permutation primitive,
with no global state.  Second, the final `threshold`, `stopping_det_stat`
and cleaned sample set do not depend on the shuffling or fitting primitives
at all: they are fixed before batching and fitting happen. -/
theorem c8_identical_runs_identical_results :
    (∀ tp rng fitP cfg1 cfg2 s1 s2, cfg1 = cfg2 → s1 = s2 →
      construct tp rng fitP cfg1 s1 = construct tp rng fitP cfg2 s2)
    ∧ (∀ tp rng1 rng2 fitP1 fitP2 cfg samples,
      Except.map (fun r => (r.diag, r.cleaned)) (construct tp rng1 fitP1 cfg samples)
        = Except.map (fun r => (r.diag, r.cleaned)) (construct tp rng2 fitP2 cfg samples)) := by
  constructor
  · intro tp rng fitP cfg1 cfg2 s1 s2 h1 h2
    rw [h1, h2]
  · intro tp rng1 rng2 fitP1 fitP2 cfg samples
    unfold construct
    cases hL : notchLoop tp (resolveStoppingQuantile cfg.stopping_quantile)
        (resolveStoppingDetStatArg cfg.stopping_det_stat)
        (resolveThresholdArg cfg.threshold)
        (resolveNumIterations cfg.threshold cfg.num_iterations)
        (resolveNumIterations cfg.threshold cfg.num_iterations) (samples, none) with
    | error e => simp [hL]
    | ok st => simp [hL, Except.map]

/-- Witness for C8 on a concrete configuration and input. -/
theorem c8_identical_runs_identical_results_witness :
    construct (fun _ => none) (fun _ l => l) (fun _ => (0, 1))
        { stopping_det_stat := some 2, threshold := some (.value 1) } [(1, 3)]
      = construct (fun _ => none) (fun _ l => l) (fun _ => (0, 1))
        { stopping_det_stat := some 2, threshold := some (.value 1) } [(1, 3)] :=
  c8_identical_runs_identical_results.1 (fun _ => none) (fun _ l => l)
    (fun _ => (0, 1))
    { stopping_det_stat := some 2, threshold := some (.value 1) }
    { stopping_det_stat := some 2, threshold := some (.value 1) }
    [(1, 3)] [(1, 3)] rfl rfl
